import Mathlib

/-!
Shallow embedding of the per-call session handler in src/src/server.ts
(the WebSocket connection handler installed by wss.on, lines 52-206).

The handler keeps one mutable per-connection variable, callSid (line 54).
It dispatches each inbound JSON message by its type tag (handleMessage,
lines 92-197) and emits outbound wire messages through sendTextToTTS
(lines 57-70).  The OpenAI chat-completion call inside getAIResponse
(lines 73-89) is external: we model its outcome as an oracle value
(GenOutcome) supplied with each prompt event.

Two execution semantics are given:
- runConn: atomic processing, one event handled to completion at a time;
- runMicro: the prompt handler's await point is made explicit, splitting a
  prompt turn into a deliver step (the generation call is issued) and a
  later resolve step (the awaited promise resolves and the continuation,
  sendText of the result, runs).  This models the fact that ws.on calls
  the async handleMessage without awaiting it, so further events can be
  processed while a generation call is outstanding.
-/

/-- Outbound wire message built in sendTextToTTS (server.ts lines 60-67):
the object literal with fields type, token, last, lang, interruptible,
preemptible. -/
structure WirePayload where
  type : String
  token : String
  last : Bool
  lang : String
  interruptible : Bool
  preemptible : Bool
deriving DecidableEq, Repr

/-- The concrete payload object of server.ts lines 60-67: type "text",
the given token, last=true, the given lang, interruptible=true,
preemptible=true. -/
def speakWire (text lang : String) : WirePayload :=
  { type := "text"
    token := text
    last := true
    lang := lang
    interruptible := true
    preemptible := true }

/-- sendTextToTTS (server.ts lines 57-70).  The guard at line 58,
if (!text) return, drops the empty string (the only falsy string in JS);
otherwise the payload of lines 60-67 is serialized and sent.  We return
the message sent over the socket, if any.  The source gives lang the
default value en-US; callers here pass it explicitly. -/
def sendTextToTTS (text lang : String) : Option WirePayload :=
  if text = "" then none else some (speakWire text lang)

/-- Outcome of the awaited openai.chat.completions.create call inside
getAIResponse (server.ts lines 75-83): either the call throws, or it
succeeds and completion.choices[0]?.message?.content is the given
optional string (none models null or undefined content). -/
inductive GenOutcome where
  | fail
  | ok (content : Option String)
deriving DecidableEq, Repr

/-- Default reply when the completion succeeds but its content is falsy
(server.ts line 84, right operand of the JS or). -/
def defaultText : String := "I\x27m sorry, I didn\x27t understand that."

/-- Fallback reply produced by the catch block (server.ts line 87). -/
def fallbackText : String := "I\x27m having trouble processing that request. Please try again."

/-- getAIResponse (server.ts lines 73-89) as a function of the
completion outcome.  On success it returns
completion.choices[0]?.message?.content || default (line 84), where the
JS or takes the default for null, undefined or empty content; the catch
block (lines 85-88) turns any thrown error into the fixed fallback. -/
def getAIResponse (outcome : GenOutcome) : String :=
  match outcome with
  | .fail => fallbackText
  | .ok none => defaultText
  | .ok (some content) => if content = "" then defaultText else content

/-- Inbound relay events, keyed by the type field switched on at
server.ts line 96.  Every payload field is Option-valued so that a
malformed message missing a required field for its declared type is
representable (the missing field reads as undefined in JS). -/
inductive InboundMsg where
  | setup (callSid fromNum toNum : Option String)
  | prompt (voicePrompt lang : Option String)
  | interrupt (utteranceUntilInterrupt : Option String) (durationUntilInterruptMs : Option Nat)
  | dtmf (digit : Option String)
  | error (description : Option String)
  | stop (reason : Option String)
deriving DecidableEq, Repr

/-- JS truthiness of the optional string field tested at server.ts line
121, if (promptMsg.voicePrompt): undefined and the empty string are
falsy. -/
def truthy : Option String → Bool
  | none => false
  | some s => s ≠ ""

/-- Coercion applied by the template literal at server.ts line 168,
You pressed (dollar)(dtmfMsg.digit): an undefined field prints as the
string undefined. -/
def jsShow : Option String → String
  | none => "undefined"
  | some s => s

/-- Greeting sent by handleCallSetup (server.ts line 106). -/
def greetingText : String := "Hello! Welcome to the voice assistant. How can I help you today?"

/-- The per-connection mutable state: the single variable
callSid: string | null = null declared at server.ts line 54.  No other
session field exists in the source. -/
structure ConnState where
  callSid : Option String
deriving DecidableEq, Repr

/-- State at connection accept time (callSid = null). -/
def initialConn : ConnState := { callSid := none }

/-- Result of handling one inbound message to completion: the updated
connection state, the wire messages sent (in order), and the number of
OpenAI generation calls issued while handling it. -/
structure StepResult where
  state : ConnState
  out : List WirePayload
  genCalls : Nat
deriving DecidableEq, Repr

/-- handleMessage (server.ts lines 92-197), one inbound event handled to
completion (the prompt arm awaited to its end), as a function of the
connection state and of the generation outcome the OpenAI call would
produce for this event.
- setup (lines 97-116, handleCallSetup): assigns callSid from the event
  and sends the greeting through sendTextToTTS;
- prompt (lines 118-146, handleConversationTurn): if voicePrompt is
  truthy, awaits getAIResponse once and sends its result; otherwise does
  nothing;
- interrupt (lines 148-162, handleUserInterruption): logs only, sends
  nothing, changes nothing;
- dtmf (lines 164-176, handleDTMFInput): sends You pressed (digit);
- error (lines 178-181): logs only;
- stop (lines 183-195, handleCallEnd): logs only; no state is changed
  and no flag marks the connection closed. -/
def handleMessage (st : ConnState) (gen : GenOutcome) : InboundMsg → StepResult
  | .setup callSid _fromNum _toNum =>
      { state := { callSid := callSid }
        out := (sendTextToTTS greetingText "en-US").toList
        genCalls := 0 }
  | .prompt voicePrompt _lang =>
      if truthy voicePrompt then
        { state := st
          out := (sendTextToTTS (getAIResponse gen) "en-US").toList
          genCalls := 1 }
      else
        { state := st, out := [], genCalls := 0 }
  | .interrupt _utt _dur => { state := st, out := [], genCalls := 0 }
  | .dtmf digit =>
      { state := st
        out := (sendTextToTTS ("You pressed " ++ jsShow digit) "en-US").toList
        genCalls := 0 }
  | .error _descr => { state := st, out := [], genCalls := 0 }
  | .stop _reason => { state := st, out := [], genCalls := 0 }

/-- A whole-connection run under atomic event processing: events arrive
in list order, each paired with the generation outcome its OpenAI call
(if any) would produce. -/
def runConn (st : ConnState) : List (InboundMsg × GenOutcome) → StepResult
  | [] => { state := st, out := [], genCalls := 0 }
  | (m, g) :: rest =>
      let r := handleMessage st g m
      let r2 := runConn r.state rest
      { state := r2.state, out := r.out ++ r2.out, genCalls := r.genCalls + r2.genCalls }

/-- State of a connection under the interleaved semantics: the callSid
variable plus the outstanding generation calls, in issue order.  Each
pending entry records the outcome the awaited OpenAI promise will
deliver; the continuation captured by the await at server.ts line 129 is
always the same: sendText the response (line 134). -/
structure AsyncState where
  conn : ConnState
  pending : List GenOutcome
deriving DecidableEq, Repr

/-- Async start state at connection accept time. -/
def initialAsync : AsyncState := { conn := initialConn, pending := [] }

/-- One scheduler step of the interleaved semantics: either an inbound
event is delivered and its synchronous portion runs, or the i-th
outstanding generation promise resolves and its continuation runs. -/
inductive MicroEvent where
  | deliver (msg : InboundMsg) (gen : GenOutcome)
  | resolve (i : Nat)
deriving DecidableEq, Repr

/-- Result of one micro step. -/
structure MicroResult where
  state : AsyncState
  out : List WirePayload
deriving DecidableEq, Repr

/-- One micro step.  Delivering a prompt with truthy voicePrompt runs
handleConversationTurn up to the await at server.ts line 129: the
generation call is issued (appended to pending) and nothing is sent yet.
All other deliveries have no await, so they run exactly as in
handleMessage.  A resolve step runs the continuation of the chosen
outstanding call: sendText(aiResponse) at line 134, where aiResponse is
getAIResponse of the recorded outcome; the source consults no turn
counter and no interruption flag before sending. -/
def microStep (st : AsyncState) : MicroEvent → MicroResult
  | .deliver (.prompt voicePrompt _lang) g =>
      if truthy voicePrompt then
        { state := { conn := st.conn, pending := st.pending ++ [g] }, out := [] }
      else
        { state := st, out := [] }
  | .deliver m g =>
      let r := handleMessage st.conn g m
      { state := { conn := r.state, pending := st.pending }, out := r.out }
  | .resolve i =>
      match st.pending[i]? with
      | some g =>
          { state := { conn := st.conn, pending := st.pending.eraseIdx i }
            out := (sendTextToTTS (getAIResponse g) "en-US").toList }
      | none => { state := st, out := [] }

/-- A whole-connection run under the interleaved semantics. -/
def runMicro (st : AsyncState) : List MicroEvent → AsyncState × List WirePayload
  | [] => (st, [])
  | e :: rest =>
      let r := microStep st e
      let r2 := runMicro r.state rest
      (r2.1, r.out ++ r2.2)

/-- True when the event is a setup event. -/
def InboundMsg.isSetup : InboundMsg → Bool
  | .setup _ _ _ => true
  | _ => false

/-! Helper lemmas shared by the claim theorems. -/

/-- getAIResponse never returns the empty string: a non-empty content is
returned as is, and both the default reply and the catch fallback are
non-empty literals. -/
theorem getAIResponse_ne_empty (g : GenOutcome) : getAIResponse g ≠ "" := by
  cases g with
  | fail => decide
  | ok c =>
      cases c with
      | none => decide
      | some t =>
          by_cases h : t = ""
          · simp [getAIResponse, h]
            decide
          · simp [getAIResponse, h]

/-- For non-empty text the guard of sendTextToTTS passes and the payload
of lines 60-67 is sent. -/
theorem sendTextToTTS_of_ne (t l : String) (h : t ≠ "") :
    sendTextToTTS t l = some (speakWire t l) := by
  simp [sendTextToTTS, h]

/-- Every arm of handleMessage other than setup leaves the connection
state (the callSid variable) untouched. -/
theorem handleMessage_state_of_not_setup (st : ConnState) (g : GenOutcome)
    (m : InboundMsg) (h : m.isSetup = false) :
    (handleMessage st g m).state = st := by
  cases m with
  | setup a b c => simp [InboundMsg.isSetup] at h
  | prompt vp l =>
      by_cases hvp : truthy vp <;> simp [handleMessage, hvp]
  | interrupt a b => rfl
  | dtmf d => rfl
  | error d => rfl
  | stop r => rfl

/-- Over a trace containing no setup event, runConn leaves the
connection state untouched. -/
theorem runConn_state_of_no_setup (evs : List (InboundMsg × GenOutcome)) :
    ∀ (st : ConnState), evs.all (fun e => !e.1.isSetup) = true →
      (runConn st evs).state = st := by
  induction evs with
  | nil => intro st _; rfl
  | cons e rest ih =>
      intro st h
      obtain ⟨m, g⟩ := e
      simp only [List.all_cons, Bool.and_eq_true, Bool.not_eq_true'] at h
      show (runConn (handleMessage st g m).state rest).state = st
      rw [handleMessage_state_of_not_setup st g m h.1]
      exact ih st h.2

/-- The wire messages and the number of generation calls produced by one
event do not depend on the connection state: an event is handled the
same way before and after setup. -/
theorem handleMessage_out_state_independent (st st' : ConnState)
    (g : GenOutcome) (m : InboundMsg) :
    (handleMessage st g m).out = (handleMessage st' g m).out ∧
    (handleMessage st g m).genCalls = (handleMessage st' g m).genCalls := by
  cases m with
  | setup a b c => exact ⟨rfl, rfl⟩
  | prompt vp l =>
      by_cases hvp : truthy vp <;> simp [handleMessage, hvp]
  | interrupt a b => exact ⟨rfl, rfl⟩
  | dtmf d => exact ⟨rfl, rfl⟩
  | error d => exact ⟨rfl, rfl⟩
  | stop r => exact ⟨rfl, rfl⟩

/-- The invariant carried by every payload speakWire builds. -/
theorem speakWire_flags (t l : String) :
    (speakWire t l).type = "text" ∧ (speakWire t l).last = true ∧
    (speakWire t l).interruptible = true ∧ (speakWire t l).preemptible = true :=
  ⟨rfl, rfl, rfl, rfl⟩

/-- Any payload sendTextToTTS emits is a speakWire payload. -/
theorem mem_sendTextToTTS (t l : String) (p : WirePayload)
    (h : p ∈ (sendTextToTTS t l).toList) : p = speakWire t l := by
  by_cases ht : t = "" <;> simp [sendTextToTTS, ht] at h
  exact h

/-- The text of the dtmf reply is never empty, whatever the digit field
holds. -/
theorem youPressed_ne_empty (d : Option String) :
    ("You pressed " ++ jsShow d) ≠ "" := by
  intro heq
  have h2 := congrArg String.length heq
  rw [String.length_append] at h2
  have h3 : "You pressed ".length = 12 := rfl
  have h4 : "".length = 0 := rfl
  omega

/-- Any payload handleMessage emits is a speakWire payload. -/
theorem mem_handleMessage_out (st : ConnState) (g : GenOutcome)
    (m : InboundMsg) (p : WirePayload) (h : p ∈ (handleMessage st g m).out) :
    ∃ t l, p = speakWire t l := by
  cases m with
  | setup a b c =>
      simp only [handleMessage] at h
      exact ⟨_, _, mem_sendTextToTTS _ _ p h⟩
  | prompt vp l =>
      by_cases hvp : truthy vp <;> simp [handleMessage, hvp] at h
      rw [sendTextToTTS_of_ne _ _ (getAIResponse_ne_empty g)] at h
      exact ⟨_, _, (Option.some.inj h).symm⟩
  | interrupt a b => simp [handleMessage] at h
  | dtmf d =>
      simp only [handleMessage] at h
      exact ⟨_, _, mem_sendTextToTTS _ _ p h⟩
  | error d => simp [handleMessage] at h
  | stop r => simp [handleMessage] at h

/-- Any payload a micro step emits is a speakWire payload. -/
theorem mem_microStep_out (st : AsyncState) (e : MicroEvent) (p : WirePayload)
    (h : p ∈ (microStep st e).out) : ∃ t l, p = speakWire t l := by
  cases e with
  | deliver m g =>
      cases m with
      | prompt vp l =>
          by_cases hvp : truthy vp <;> simp [microStep, hvp] at h
      | setup a b c => exact mem_handleMessage_out st.conn g _ p h
      | interrupt a b => exact mem_handleMessage_out st.conn g _ p h
      | dtmf d => exact mem_handleMessage_out st.conn g _ p h
      | error d => exact mem_handleMessage_out st.conn g _ p h
      | stop r => exact mem_handleMessage_out st.conn g _ p h
  | resolve i =>
      cases hg : st.pending[i]? with
      | none => simp [microStep, hg] at h
      | some g =>
          simp only [microStep, hg] at h
          exact ⟨_, _, mem_sendTextToTTS _ _ p h⟩

/-- Any payload in an atomic run is a speakWire payload. -/
theorem mem_runConn_out (evs : List (InboundMsg × GenOutcome)) :
    ∀ (st : ConnState) (p : WirePayload), p ∈ (runConn st evs).out →
      ∃ t l, p = speakWire t l := by
  induction evs with
  | nil => intro st p h; simp [runConn] at h
  | cons e rest ih =>
      intro st p h
      simp only [runConn, List.mem_append] at h
      cases h with
      | inl h => exact mem_handleMessage_out st e.2 e.1 p h
      | inr h => exact ih _ p h

/-- Any payload in an interleaved run is a speakWire payload. -/
theorem mem_runMicro_out (steps : List MicroEvent) :
    ∀ (st : AsyncState) (p : WirePayload), p ∈ (runMicro st steps).2 →
      ∃ t l, p = speakWire t l := by
  induction steps with
  | nil => intro st p h; simp [runMicro] at h
  | cons e rest ih =>
      intro st p h
      simp only [runMicro, List.mem_append] at h
      cases h with
      | inl h => exact mem_microStep_out st e p h
      | inr h => exact ih _ p h

/-- Splitting an interleaved run at an append boundary. -/
theorem runMicro_append (a b : List MicroEvent) :
    ∀ st, runMicro st (a ++ b)
      = ((runMicro (runMicro st a).1 b).1,
         (runMicro st a).2 ++ (runMicro (runMicro st a).1 b).2) := by
  induction a with
  | nil => intro st; simp [runMicro]
  | cons e rest ih => intro st; simp [runMicro, ih, List.append_assoc]

/-- Scenario for the interrupt race: setup, then a prompt whose
generation call will eventually produce hello, then an interrupt
delivered while that call is still outstanding. -/
def interruptRace : List MicroEvent :=
  [ .deliver (.setup (some "CA123") (some "+15550100") (some "+15550199")) (.ok none)
  , .deliver (.prompt (some "hi") (some "en-US")) (.ok (some "hello"))
  , .deliver (.interrupt (some "Hel") (some 1200)) (.ok none) ]

/-- C1 counterexample: an Interrupt is processed after the Prompt of the
current turn and before its generation call resolves, yet when the call
resolves its result hello IS emitted as a Speak directive (the second
payload below), contradicting the claim that the stale result is
discarded and never spoken. -/
theorem C1_counterexample :
    (runMicro initialAsync (interruptRace ++ [MicroEvent.resolve 0])).2
      = [speakWire greetingText "en-US", speakWire "hello" "en-US"] := by
  rfl

/-- C1 amended: the handler performs no turn-fencing.  After any
sequence of micro steps, an Interrupt included, resolving an
outstanding generation call always appends exactly one Speak directive
carrying the resolved response: the result is emitted regardless of any
Interrupt processed in between. -/
theorem C1_no_turn_fencing (pre : List MicroEvent) (i : Nat) (g : GenOutcome)
    (h : (runMicro initialAsync pre).1.pending[i]? = some g) :
    (runMicro initialAsync (pre ++ [MicroEvent.resolve i])).2
      = (runMicro initialAsync pre).2
        ++ [speakWire (getAIResponse g) "en-US"] := by
  rw [runMicro_append]
  simp [runMicro, microStep, h, sendTextToTTS_of_ne _ _ (getAIResponse_ne_empty g)]

/-- C1 witness: the amended theorem applied to the interrupt-race
scenario. -/
theorem C1_no_turn_fencing_witness :
    ((runMicro initialAsync interruptRace).1.pending[0]?
        = some (GenOutcome.ok (some "hello"))) ∧
    (runMicro initialAsync (interruptRace ++ [MicroEvent.resolve 0])).2
      = (runMicro initialAsync interruptRace).2
        ++ [speakWire (getAIResponse (GenOutcome.ok (some "hello"))) "en-US"] :=
  ⟨rfl, C1_no_turn_fencing interruptRace 0 (GenOutcome.ok (some "hello")) rfl⟩

/-- C2 counterexample: after a Stop has been processed, a dtmf event is
still handled and emits a Speak directive, contradicting the claim that
every event after Stop is a no-op producing zero outbound directives. -/
theorem C2_counterexample :
    (runConn initialConn
      [ (.setup (some "CA123") (some "+15550100") (some "+15550199"), .fail)
      , (.stop (some "normal"), .fail)
      , (.dtmf (some "5"), .fail) ]).out
    = [speakWire greetingText "en-US", speakWire "You pressed 5" "en-US"] := by
  rfl

/-- C2 amended: processing a Stop event only records the call end: it
emits zero outbound directives and changes no connection state, but it
does NOT move the session into a terminal state — a run continuing after
Stop is identical to the same run without the Stop event. -/
theorem C2_stop_records_only (st : ConnState) (reason : Option String)
    (g : GenOutcome) (rest : List (InboundMsg × GenOutcome)) :
    handleMessage st g (.stop reason) = { state := st, out := [], genCalls := 0 } ∧
    runConn st ((.stop reason, g) :: rest) = runConn st rest := by
  refine ⟨rfl, ?_⟩
  simp [runConn, handleMessage]

/-- C3 counterexample: a dtmf event received before any Setup is not
rejected: it is processed and emits a Speak directive, contradicting the
claim that every event type other than Setup is a no-op before Setup. -/
theorem C3_counterexample :
    (runConn initialConn [(.dtmf (some "5"), .fail)]).out
      = [speakWire "You pressed 5" "en-US"] := by
  rfl

/-- C3 amended: events received before Setup are NOT rejected — the
handler consults no state when dispatching, so every event is processed
exactly the same way before and after Setup — but the callSid field does
remain unset (null) over any sequence of events containing no Setup,
since only the setup arm assigns it. -/
theorem C3_pre_setup_not_rejected (evs : List (InboundMsg × GenOutcome))
    (h : evs.all (fun e => !e.1.isSetup) = true) :
    (runConn initialConn evs).state.callSid = none ∧
    ∀ (st st' : ConnState) (g : GenOutcome) (m : InboundMsg),
      (handleMessage st g m).out = (handleMessage st' g m).out ∧
      (handleMessage st g m).genCalls = (handleMessage st' g m).genCalls := by
  refine ⟨?_, fun st st' g m => handleMessage_out_state_independent st st' g m⟩
  rw [runConn_state_of_no_setup evs initialConn h]
  rfl

/-- C3 witness: the amended theorem applied to a one-event trace holding
a dtmf event and no Setup. -/
theorem C3_pre_setup_not_rejected_witness :
    ([((InboundMsg.dtmf (some "5")), GenOutcome.fail)].all
        (fun e => !e.1.isSetup) = true) ∧
    ((runConn initialConn
        [(InboundMsg.dtmf (some "5"), GenOutcome.fail)]).state.callSid = none ∧
     ∀ (st st' : ConnState) (g : GenOutcome) (m : InboundMsg),
       (handleMessage st g m).out = (handleMessage st' g m).out ∧
       (handleMessage st g m).genCalls = (handleMessage st' g m).genCalls) :=
  ⟨by decide, C3_pre_setup_not_rejected _ (by decide)⟩

/-- C4: when the generation call throws, the catch block converts the
failure into the fixed fallback utterance: the handler emits exactly one
Speak directive carrying fallbackText, the connection state is
unchanged (no closure, no termination), and since the embedding of the
prompt arm is a total function the failure is never propagated. -/
theorem C4_generation_failure_fallback (st : ConnState) (v : String)
    (lang : Option String) (h : v ≠ "") :
    handleMessage st .fail (.prompt (some v) lang)
      = { state := st, out := [speakWire fallbackText "en-US"], genCalls := 1 } := by
  have hv : truthy (some v) = true := by simp [truthy, h]
  simp [handleMessage, hv, getAIResponse,
        sendTextToTTS_of_ne fallbackText "en-US" (by decide)]

/-- C4 witness: the theorem applied to the prompt hi with a failing
generation call. -/
theorem C4_generation_failure_fallback_witness :
    ("hi" ≠ "") ∧
    handleMessage initialConn .fail (.prompt (some "hi") (some "en-US"))
      = { state := initialConn, out := [speakWire fallbackText "en-US"], genCalls := 1 } :=
  ⟨by decide,
   C4_generation_failure_fallback initialConn "hi" (some "en-US") (by decide)⟩

/-- C5 counterexample: for the prompt hi whose generation call succeeds
with empty content, the emitted Speak directive carries defaultText,
which is neither the generated text (the empty string) nor the fallback
text, contradicting the claim that the directive carries either the
generated text or the fallback text. -/
theorem C5_counterexample :
    (handleMessage initialConn (.ok (some "")) (.prompt (some "hi") (some "en-US"))).out
      = [speakWire defaultText "en-US"] ∧
    defaultText ≠ "" ∧ defaultText ≠ fallbackText := by
  refine ⟨rfl, by decide, by decide⟩

/-- C5 amended: for every Prompt event carrying a non-empty utterance,
exactly one generation call is issued and exactly one Speak directive is
emitted for that turn, with finality true; its text is the generated
text when that is non-empty, the fixed defaultText when the completion
succeeds with empty or missing content, and fallbackText when the call
fails. -/
theorem C5_prompt_exactly_one_directive (st : ConnState) (v : String)
    (lang : Option String) (g : GenOutcome) (h : v ≠ "") :
    (handleMessage st g (.prompt (some v) lang)).genCalls = 1 ∧
    (handleMessage st g (.prompt (some v) lang)).out
      = [speakWire (getAIResponse g) "en-US"] ∧
    (speakWire (getAIResponse g) "en-US").last = true ∧
    ((∃ t, g = .ok (some t) ∧ t ≠ "" ∧ getAIResponse g = t) ∨
     ((g = .ok none ∨ g = .ok (some "")) ∧ getAIResponse g = defaultText) ∨
     (g = .fail ∧ getAIResponse g = fallbackText)) := by
  have hv : truthy (some v) = true := by simp [truthy, h]
  refine ⟨by simp [handleMessage, hv], ?_, rfl, ?_⟩
  · simp [handleMessage, hv, sendTextToTTS_of_ne _ _ (getAIResponse_ne_empty g)]
  · cases g with
    | fail => exact Or.inr (Or.inr ⟨rfl, rfl⟩)
    | ok c =>
        cases c with
        | none => exact Or.inr (Or.inl ⟨Or.inl rfl, rfl⟩)
        | some t =>
            by_cases ht : t = ""
            · subst ht; exact Or.inr (Or.inl ⟨Or.inr rfl, rfl⟩)
            · exact Or.inl ⟨t, rfl, ht, by simp [getAIResponse, ht]⟩

/-- C5 witness: the amended theorem applied to the prompt hi with a
generation call resolving to hello. -/
theorem C5_prompt_exactly_one_directive_witness :
    ("hi" ≠ "") ∧
    ((handleMessage initialConn (GenOutcome.ok (some "hello"))
        (.prompt (some "hi") (some "en-US"))).genCalls = 1 ∧
     (handleMessage initialConn (GenOutcome.ok (some "hello"))
        (.prompt (some "hi") (some "en-US"))).out
       = [speakWire (getAIResponse (GenOutcome.ok (some "hello"))) "en-US"] ∧
     (speakWire (getAIResponse (GenOutcome.ok (some "hello"))) "en-US").last = true ∧
     ((∃ t, GenOutcome.ok (some "hello") = .ok (some t) ∧ t ≠ "" ∧
          getAIResponse (GenOutcome.ok (some "hello")) = t) ∨
      ((GenOutcome.ok (some "hello") = .ok none ∨
        GenOutcome.ok (some "hello") = .ok (some "")) ∧
        getAIResponse (GenOutcome.ok (some "hello")) = defaultText) ∨
      (GenOutcome.ok (some "hello") = .fail ∧
        getAIResponse (GenOutcome.ok (some "hello")) = fallbackText))) :=
  ⟨by decide,
   C5_prompt_exactly_one_directive initialConn "hi" (some "en-US")
     (GenOutcome.ok (some "hello")) (by decide)⟩

/-- C6 counterexample: for the empty string the guard at server.ts line
58 returns early and no wire message is produced, contradicting the
claim that every text value, the empty string included, produces a wire
message. -/
theorem C6_counterexample : sendTextToTTS "" "en-US" = none := rfl

/-- C6 amended: the Directive Encoder is a pure stateless total
function; it produces a wire message for every non-empty text, but the
empty string produces no wire message. -/
theorem C6_encoder_nonempty_total (t lang : String) :
    (t ≠ "" → sendTextToTTS t lang = some (speakWire t lang)) ∧
    sendTextToTTS "" lang = none :=
  ⟨fun h => sendTextToTTS_of_ne t lang h, rfl⟩

/-- C6 witness: the amended theorem applied to the text hello. -/
theorem C6_encoder_nonempty_total_witness :
    sendTextToTTS "hello" "en-US" = some (speakWire "hello" "en-US") ∧
    sendTextToTTS "" "en-US" = none :=
  ⟨(C6_encoder_nonempty_total "hello" "en-US").1 (by decide),
   (C6_encoder_nonempty_total "hello" "en-US").2⟩

/-- C7 counterexample: a dtmf event missing its required digit field is
not dropped: the handler emits a Speak directive for it (the undefined
field prints as the string undefined), contradicting the claim that a
malformed payload never yields an outbound directive. -/
theorem C7_counterexample :
    (handleMessage initialConn .fail (.dtmf none)).out
      = [speakWire "You pressed undefined" "en-US"] := rfl

/-- C7 amended: a malformed payload with a recognized type field never
crashes the handler and never closes the connection (each arm is total
and leaves the state unchanged), but it is not always dropped without
output: a dtmf event missing its digit emits a Speak directive whose
token names the undefined digit, while a prompt missing its utterance is
dropped with no directive and no generation call. -/
theorem C7_malformed_fields (st : ConnState) (g : GenOutcome)
    (lang : Option String) :
    ((handleMessage st g (.dtmf none)).state = st ∧
     (handleMessage st g (.dtmf none)).out
       = [speakWire "You pressed undefined" "en-US"]) ∧
    ((handleMessage st g (.prompt none lang)).state = st ∧
     (handleMessage st g (.prompt none lang)).out = [] ∧
     (handleMessage st g (.prompt none lang)).genCalls = 0) :=
  ⟨⟨rfl, rfl⟩, rfl, rfl, rfl⟩

/-- C8: processing a Setup event emits exactly one Speak directive, the
greeting, with finality true; in a run whose first event is the Setup,
that greeting is the first outbound message, emitted before the output
of any later event, a Prompt included. -/
theorem C8_setup_single_greeting (st : ConnState) (g : GenOutcome)
    (cs fromNum toNum : Option String) (rest : List (InboundMsg × GenOutcome)) :
    (handleMessage st g (.setup cs fromNum toNum)).out
      = [speakWire greetingText "en-US"] ∧
    (speakWire greetingText "en-US").last = true ∧
    (runConn st ((.setup cs fromNum toNum, g) :: rest)).out
      = speakWire greetingText "en-US" :: (runConn { callSid := cs } rest).out := by
  have h1 : (handleMessage st g (.setup cs fromNum toNum)).out
      = [speakWire greetingText "en-US"] := by
    simp [handleMessage, sendTextToTTS_of_ne greetingText "en-US" (by decide)]
  refine ⟨h1, rfl, ?_⟩
  simp [runConn, handleMessage, sendTextToTTS_of_ne greetingText "en-US" (by decide)]

/-- C9: every outbound message, over every atomic run and every
interleaved run, has type text, last true, interruptible true and
preemptible true: all output flows through sendTextToTTS, which fixes
those fields. -/
theorem C9_outbound_always_final_interruptible :
    (∀ (st : ConnState) (evs : List (InboundMsg × GenOutcome)) (p : WirePayload),
        p ∈ (runConn st evs).out →
        p.type = "text" ∧ p.last = true ∧
        p.interruptible = true ∧ p.preemptible = true) ∧
    (∀ (st : AsyncState) (steps : List MicroEvent) (p : WirePayload),
        p ∈ (runMicro st steps).2 →
        p.type = "text" ∧ p.last = true ∧
        p.interruptible = true ∧ p.preemptible = true) := by
  constructor
  · intro st evs p h
    obtain ⟨t, l, rfl⟩ := mem_runConn_out evs st p h
    exact speakWire_flags t l
  · intro st steps p h
    obtain ⟨t, l, rfl⟩ := mem_runMicro_out steps st p h
    exact speakWire_flags t l

/-- C9 witness: the invariant applied to the payload emitted by a
one-event dtmf run. -/
theorem C9_outbound_always_final_interruptible_witness :
    (speakWire "You pressed 5" "en-US"
        ∈ (runConn initialConn [(InboundMsg.dtmf (some "5"), GenOutcome.fail)]).out) ∧
    ((speakWire "You pressed 5" "en-US").type = "text" ∧
     (speakWire "You pressed 5" "en-US").last = true ∧
     (speakWire "You pressed 5" "en-US").interruptible = true ∧
     (speakWire "You pressed 5" "en-US").preemptible = true) :=
  ⟨by decide,
   C9_outbound_always_final_interruptible.1 initialConn
     [(InboundMsg.dtmf (some "5"), GenOutcome.fail)]
     (speakWire "You pressed 5" "en-US") (by decide)⟩

/-- C10: when the completion succeeds with missing (null) or empty
content, getAIResponse returns the fixed defaultText, which is distinct
from the failure-path fallbackText; and for every outcome the response
is non-empty, so the Speak directive built from it always exists and
never carries an empty token. -/
theorem C10_empty_content_default :
    getAIResponse (.ok none) = defaultText ∧
    getAIResponse (.ok (some "")) = defaultText ∧
    defaultText ≠ fallbackText ∧ defaultText ≠ "" ∧
    ∀ (g : GenOutcome) (lang : String),
      sendTextToTTS (getAIResponse g) lang
        = some (speakWire (getAIResponse g) lang) ∧
      (speakWire (getAIResponse g) lang).token ≠ "" := by
  refine ⟨rfl, rfl, by decide, by decide, fun g lang => ?_⟩
  exact ⟨sendTextToTTS_of_ne _ _ (getAIResponse_ne_empty g),
         getAIResponse_ne_empty g⟩
